import Mathlib

/-!
Verification of the CineMatch movie randomizer (src/movie_randomizer.py).

The program is a single-file data pipeline: a normalizer turns raw rows
(either the embedded mock list or the Kaggle movies/ratings tables) into
uniform movie records, a filter engine applies three boolean predicates
(minimum rating, inclusive year range, genre membership with an "Any"
wildcard), and a selector draws one uniformly random record from the
filtered list, clearing the selection when the list is empty.

The shallow embedding below mirrors the source line by line: pandas
DataFrames become lists of records, the random draw becomes an explicit
index supplied by the environment, Streamlit session state becomes an
explicit `Option MovieRecord` value, and the Kaggle download becomes an
`Except` value fed to the loading logic.
-/

namespace CineMatch

/-- A normalized movie row: the columns of the DataFrame the app works
with (`title`, `year`, `genres` raw string, `genres_list`, `avg_rating`,
`overview`).  Ratings are modelled as rationals. -/
structure MovieRecord where
  title : String
  year : Int
  genres : String
  genres_list : List String
  avg_rating : ℚ
  overview : String
deriving DecidableEq, Repr

/-- Split a character list at every occurrence of the separator
character, accumulating the current chunk; Python list-split semantics
(the empty string yields one empty chunk). -/
def splitCharsOn (sep : Char) : List Char → List Char → List (List Char)
  | [], acc => [acc.reverse]
  | c :: rest, acc =>
    if c = sep then acc.reverse :: splitCharsOn sep rest []
    else splitCharsOn sep rest (c :: acc)

/-- The split `df['genres'].str.split('|')` applied to one cell (lines 42 and 70):
split the genre string on the pipe character. -/
def splitGenres (s : String) : List String :=
  (splitCharsOn '|' s.data []).map String.mk

/-- One raw entry of the embedded `MOCK_MOVIES` list (lines 21-35). -/
structure RawMockMovie where
  title : String
  year : Int
  genres : String
  avg_rating : ℚ
  overview : String
deriving DecidableEq, Repr

/-- The embedded fallback sample set `MOCK_MOVIES` (lines 21-35). -/
def MOCK_MOVIES : List RawMockMovie := [
  { title := "The Dark Knight", year := 2008, genres := "Action|Crime|Drama", avg_rating := mkRat 90 10,
    overview := "When the menace known as the Joker wreaks havoc and chaos on the people of Gotham, Batman must accept one of the greatest psychological and physical tests of his ability to fight injustice." },
  { title := "Inception", year := 2010, genres := "Action|Adventure|Sci-Fi", avg_rating := mkRat 88 10,
    overview := "A thief who steals corporate secrets through the use of dream-sharing technology is given the inverse task of planting an idea into the mind of a C.E.O." },
  { title := "Interstellar", year := 2014, genres := "Adventure|Drama|Sci-Fi", avg_rating := mkRat 86 10,
    overview := "A team of explorers travel through a wormhole in space in an attempt to ensure humanity\x27s survival." },
  { title := "Parasite", year := 2019, genres := "Drama|Thriller", avg_rating := mkRat 86 10,
    overview := "Greed and class discrimination threaten the newly formed symbiotic relationship between the wealthy Park family and the destitute Kim clan." },
  { title := "Spirited Away", year := 2001, genres := "Animation|Adventure|Family", avg_rating := mkRat 86 10,
    overview := "During her family\x27s move to the suburbs, a sullen 10-year-old girl wanders into a world ruled by gods, witches, and spirits." },
  { title := "Pulp Fiction", year := 1994, genres := "Crime|Drama", avg_rating := mkRat 89 10,
    overview := "The lives of two mob hitmen, a boxer, a gangster and his wife, and a pair of diner bandits intertwine in four tales of violence and redemption." },
  { title := "The Matrix", year := 1999, genres := "Action|Sci-Fi", avg_rating := mkRat 87 10,
    overview := "When a beautiful stranger leads computer hacker Neo to a forbidding underworld, he discovers the shocking truth\x2d\x2dthe life he knows is the elaborate deception of an evil cyber-intelligence." },
  { title := "Forrest Gump", year := 1994, genres := "Drama|Romance", avg_rating := mkRat 88 10,
    overview := "The presidencies of Kennedy and Johnson, the events of Vietnam, Watergate and other historical events unfold through the perspective of an Alabama man with an IQ of 75." },
  { title := "Everything Everywhere All At Once", year := 2022, genres := "Action|Adventure|Comedy", avg_rating := mkRat 80 10,
    overview := "A middle-aged Chinese immigrant is swept up into an insane adventure in which she alone can save the existence by exploring other universes." },
  { title := "Dune", year := 2021, genres := "Action|Adventure|Sci-Fi", avg_rating := mkRat 80 10,
    overview := "A noble family becomes embroiled in a war for control over the galaxy\x27s most valuable asset while its heir becomes troubled by visions of a dark future." },
  { title := "The Godfather", year := 1972, genres := "Crime|Drama", avg_rating := mkRat 92 10,
    overview := "The aging patriarch of an organized crime dynasty transfers control of his clandestine empire to his reluctant son." },
  { title := "Schindler\x27s List", year := 1993, genres := "Biography|Drama|History", avg_rating := mkRat 89 10,
    overview := "In German-occupied Poland during World War II, industrialist Oskar Schindler gradually becomes concerned for his Jewish workforce after witnessing their persecution by the Nazis." },
  { title := "Whiplash", year := 2014, genres := "Drama|Music", avg_rating := mkRat 85 10,
    overview := "A promising young drummer enrolls at a cut-throat music conservatory where his dreams of greatness are mentored by an instructor who will stop at nothing to realize a student\x27s potential." }
]

/-- Normalization of one mock row: keep every column and add
`genres_list` by splitting the genre string (line 42). -/
def normalizeMockRow (r : RawMockMovie) : MovieRecord :=
  { title := r.title, year := r.year, genres := r.genres,
    genres_list := splitGenres r.genres,
    avg_rating := r.avg_rating, overview := r.overview }

/-- The function `load_mock_data` (lines 39-43): build the DataFrame from
`MOCK_MOVIES` and add the `genres_list` column. -/
def load_mock_data : List MovieRecord :=
  MOCK_MOVIES.map normalizeMockRow

/-- The filtering logic of `main` (lines 137-146): first the rating
threshold and the inclusive year range, then, unless the genre is
"Any", genre membership in `genres_list`. -/
def filterMovies (df : List MovieRecord) (min_rating : ℚ)
    (yearLo yearHi : Int) (selected_genre : String) : List MovieRecord :=
  let base := df.filter (fun m =>
    decide (min_rating ≤ m.avg_rating) &&
    decide (yearLo ≤ m.year) && decide (m.year ≤ yearHi))
  if selected_genre = "Any" then base
  else base.filter (fun m => m.genres_list.contains selected_genre)

/-- One row of the Kaggle `movies.csv` table: `movieId,title,genres`.
The table has no overview column. -/
structure RawMovie where
  movieId : Nat
  title : String
  genres : String
deriving DecidableEq, Repr

/-- One row of the Kaggle `ratings.csv` table (the columns the code
uses: `movieId,rating`). -/
structure RawRating where
  movieId : Nat
  rating : ℚ
deriving DecidableEq, Repr

/-- Numeric value of a decimal digit character. -/
def digitVal (c : Char) : Nat := c.toNat - 48

/-- The extraction `movies['title'].str.extract(r'\((\d\x7b4\x7d)\)')` followed by
`pd.to_numeric(..., errors='coerce')` (lines 59-60): scan the title for
the first occurrence of a literal open parenthesis, four digits and a
close parenthesis, returning the four digits as a number, or `none` when no
such occurrence exists. -/
def findYear : List Char → Option Int
  | [] => none
  | c :: rest =>
    match c, rest with
    | '(', a :: b :: c2 :: d :: ')' :: _ =>
      if a.isDigit && b.isDigit && c2.isDigit && d.isDigit then
        some ((digitVal a * 1000 + digitVal b * 100 + digitVal c2 * 10 + digitVal d : Nat) : Int)
      else findYear rest
    | _, _ => findYear rest

/-- Round a rational to one decimal place, mirroring `.round(1)` on the
per-movie mean rating (line 63). -/
def round1 (q : ℚ) : ℚ :=
  ((round (q * 10) : ℤ) : ℚ) / 10

/-- The rating column of the group of rating rows with the given
`movieId` (the groupby on line 63). -/
def ratingsFor (ratings : List RawRating) (mid : Nat) : List ℚ :=
  (ratings.filter (fun r => r.movieId == mid)).map (fun r => r.rating)

/-- The series `ratings.groupby('movieId')['rating'].mean().round(1)` looked up at
one `movieId` (line 63): `none` when the movie has no rating rows, so
that the inner merge on line 66 drops it. -/
def avgRatingFor (ratings : List RawRating) (mid : Nat) : Option ℚ :=
  let rs := ratingsFor ratings mid
  if rs.isEmpty then none
  else some (round1 (rs.sum / (rs.length : ℚ)))

/-- The default plot text assigned on line 77; `movies.csv` has no
overview column, so every Kaggle record receives it. -/
def DEFAULT_OVERVIEW : String := "No plot summary available for this title."

/-- The function `load_kaggle_data` (lines 46-79) applied to the two already-parsed
tables: extract the year from each title, average the ratings grouped by
`movieId`, inner-merge the two tables, split the genre strings, drop the
rows whose year did not parse, and add the default overview column. -/
def load_kaggle_data (movies : List RawMovie) (ratings : List RawRating) :
    List MovieRecord :=
  movies.filterMap (fun m =>
    match findYear m.title.data, avgRatingFor ratings m.movieId with
    | some y, some r =>
      some { title := m.title, year := y, genres := m.genres,
             genres_list := splitGenres m.genres,
             avg_rating := r, overview := DEFAULT_OVERVIEW }
    | _, _ => none)

/-- The data-source radio choice (lines 94-98). -/
inductive DataSource where
  | demo : DataSource
  | kaggle : DataSource
deriving DecidableEq, Repr

/-- The load-data logic of `main` (lines 100-112): demo mode loads the
mock data; Kaggle mode uses the fetched result when it succeeded and on
any exception falls back to the mock data, surfacing the non-fatal
`st.error` notice recorded in the returned flag. -/
def loadData (source : DataSource)
    (kaggleResult : Except String (List MovieRecord)) :
    List MovieRecord × Bool :=
  match source with
  | DataSource.demo => (load_mock_data, false)
  | DataSource.kaggle =>
    match kaggleResult with
    | Except.ok df => (df, false)
    | Except.error _ => (load_mock_data, true)

/-- The randomize-button handler (lines 157-163).  The randomness of
`filtered_df.sample(1)` is modelled by an environment-supplied index
`k`, reduced modulo the number of candidates; `prior` is the previous
`st.session_state['selected_movie']`.  Returns the new selection
(`none` is the explicit empty signal) and whether the "No movies
found!" warning was shown. -/
def randomizeMovie (filtered : List MovieRecord) (k : Nat)
    (prior : Option MovieRecord) : Option MovieRecord × Bool :=
  if filtered.isEmpty then (none, true)
  else (filtered.get? (k % filtered.length), false)

/-! ## Concrete fixtures used by the witnesses -/

/-- The raw mock entry for The Godfather (line 32), the spec's scenario
record (1972, rated 9.2, tagged Crime|Drama). -/
def godfatherRaw : RawMockMovie :=
  { title := "The Godfather", year := 1972, genres := "Crime|Drama",
    avg_rating := mkRat 92 10,
    overview := "The aging patriarch of an organized crime dynasty transfers control of his clandestine empire to his reluctant son." }

/-- A minimal raw mock row used to exercise genre splitting. -/
def sampleRaw : RawMockMovie :=
  { title := "T", year := 2000, genres := "Action|Comedy", avg_rating := 8,
    overview := "o" }

/-! ## Theorems -/

/-- C1: every record in the filtered output comes from the catalog and
satisfies the rating threshold, the inclusive year range, and the genre
condition (the wildcard "Any", or membership of the chosen genre in the
record's genre list); equivalently, no record failing any of the three
predicates appears in the output. -/
theorem filterMovies_sound (df : List MovieRecord) (min_rating : ℚ)
    (yearLo yearHi : Int) (selected_genre : String) (m : MovieRecord)
    (hm : m ∈ filterMovies df min_rating yearLo yearHi selected_genre) :
    m ∈ df ∧ min_rating ≤ m.avg_rating ∧ yearLo ≤ m.year ∧ m.year ≤ yearHi ∧
      (selected_genre = "Any" ∨ selected_genre ∈ m.genres_list) := by
  simp only [filterMovies] at hm
  by_cases hg : selected_genre = "Any"
  · rw [if_pos hg] at hm
    rw [List.mem_filter] at hm
    obtain ⟨hdf, hcond⟩ := hm
    simp only [Bool.and_eq_true, decide_eq_true_eq] at hcond
    exact ⟨hdf, hcond.1.1, hcond.1.2, hcond.2, Or.inl hg⟩
  · rw [if_neg hg] at hm
    rw [List.mem_filter] at hm
    obtain ⟨hm1, hcont⟩ := hm
    rw [List.mem_filter] at hm1
    obtain ⟨hdf, hcond⟩ := hm1
    simp only [Bool.and_eq_true, decide_eq_true_eq] at hcond
    refine ⟨hdf, hcond.1.1, hcond.1.2, hcond.2, Or.inr ?_⟩
    simpa using hcont

/-- Witness for C1: under the filter (genre "Crime", minimum rating 9,
years 1970-1980), the 1972 Godfather record is in the output and the
theorem recovers all three predicates for it. -/
theorem filterMovies_sound_witness :
    normalizeMockRow godfatherRaw
      ∈ filterMovies load_mock_data 9 1970 1980 "Crime" ∧
    (9 : ℚ) ≤ (normalizeMockRow godfatherRaw).avg_rating ∧
    (1970 : Int) ≤ (normalizeMockRow godfatherRaw).year ∧
    "Crime" ∈ (normalizeMockRow godfatherRaw).genres_list := by
  have hmem : normalizeMockRow godfatherRaw
      ∈ filterMovies load_mock_data 9 1970 1980 "Crime" := by decide
  have h := filterMovies_sound load_mock_data 9 1970 1980 "Crime" _ hmem
  exact ⟨hmem, h.2.1, h.2.2.1, h.2.2.2.2.resolve_left (by decide)⟩

/-- C2: filtering with the genre wildcard "Any", a minimum rating at or
below every catalog rating, and a year range covering every catalog
year, returns the catalog unchanged. -/
theorem filterMovies_identity (df : List MovieRecord) (min_rating : ℚ)
    (yearLo yearHi : Int)
    (h : ∀ m ∈ df, min_rating ≤ m.avg_rating ∧ yearLo ≤ m.year ∧ m.year ≤ yearHi) :
    filterMovies df min_rating yearLo yearHi "Any" = df := by
  simp only [filterMovies, eq_self_iff_true, if_true]
  rw [List.filter_eq_self]
  intro m hm
  simp only [Bool.and_eq_true, decide_eq_true_eq]
  exact ⟨⟨(h m hm).1, (h m hm).2.1⟩, (h m hm).2.2⟩

/-- Witness for C2: on the embedded catalog, with the slider minimum
rating 1.0 and the full year span 1972-2022, the filter is the
identity. -/
theorem filterMovies_identity_witness :
    (∀ m ∈ load_mock_data,
      (1 : ℚ) ≤ m.avg_rating ∧ (1972 : Int) ≤ m.year ∧ m.year ≤ 2022) ∧
    filterMovies load_mock_data 1 1972 2022 "Any" = load_mock_data := by
  have h : ∀ m ∈ load_mock_data,
      (1 : ℚ) ≤ m.avg_rating ∧ (1972 : Int) ≤ m.year ∧ m.year ≤ 2022 := by decide
  exact ⟨h, filterMovies_identity load_mock_data 1 1972 2022 h⟩

/-- C3: requesting a selection on the empty filtered set returns the
explicit empty signal (`none`, with the warning flag set): no record is
selected and the prior selection, whatever it was, is cleared; the
handler is a total function, so no unrecoverable error is raised. -/
theorem randomizeMovie_empty (k : Nat) (prior : Option MovieRecord) :
    randomizeMovie [] k prior = (none, true) := rfl

/-- C4: whatever error the Kaggle fetch raises, loading falls back to
exactly the embedded sample catalog and sets the non-fatal warning
flag. -/
theorem loadData_fallback (e : String) :
    loadData DataSource.kaggle (Except.error e) = (load_mock_data, true) := rfl

/-- C5: normalization splits the raw genre string on the pipe
character, preserving order: a raw record with genres "Action|Comedy"
yields exactly the list ["Action", "Comedy"], in both the mock
normalizer and the shared genre-splitting step of the Kaggle path. -/
theorem normalize_splits_genres :
    (normalizeMockRow sampleRaw).genres_list = ["Action", "Comedy"] ∧
    splitGenres "Action|Comedy" = ["Action", "Comedy"] := by
  constructor <;> decide

/-! ## The Kaggle normalization path -/

/-- Every record of the normalized Kaggle catalog arises from a raw
movie row whose year parsed and whose average rating exists, and
carries exactly those values together with the split genre list and
the default overview. -/
theorem mem_load_kaggle_data {movies : List RawMovie}
    {ratings : List RawRating} {rec : MovieRecord}
    (h : rec ∈ load_kaggle_data movies ratings) :
    ∃ m, m ∈ movies ∧ rec.title = m.title ∧ rec.genres = m.genres ∧
      rec.genres_list = splitGenres m.genres ∧
      rec.overview = DEFAULT_OVERVIEW ∧
      findYear m.title.data = some rec.year ∧
      avgRatingFor ratings m.movieId = some rec.avg_rating := by
  rw [load_kaggle_data, List.mem_filterMap] at h
  obtain ⟨m, hm, hf⟩ := h
  refine ⟨m, hm, ?_⟩
  cases hy : findYear m.title.data with
  | none =>
    cases hr : avgRatingFor ratings m.movieId <;>
      rw [hy, hr] at hf <;> exact Option.noConfusion hf
  | some y =>
    cases hr : avgRatingFor ratings m.movieId with
    | none => rw [hy, hr] at hf; exact Option.noConfusion hf
    | some r =>
      rw [hy, hr] at hf
      have heq := Option.some.inj hf
      subst heq
      simp [hy, hr]

/-- A raw movie row whose year does not parse or whose average rating
does not exist contributes nothing to the normalized Kaggle catalog. -/
theorem load_kaggle_drop (b : RawMovie) (movies : List RawMovie)
    (ratings : List RawRating)
    (h : findYear b.title.data = none ∨ avgRatingFor ratings b.movieId = none) :
    load_kaggle_data (b :: movies) ratings = load_kaggle_data movies ratings := by
  rcases h with h | h
  · cases h2 : avgRatingFor ratings b.movieId <;>
      simp [load_kaggle_data, List.filterMap_cons, h, h2]
  · cases h2 : findYear b.title.data <;>
      simp [load_kaggle_data, List.filterMap_cons, h, h2]

/-- C6: every record surviving Kaggle normalization comes from a raw
row with a parseable 4-digit year in its title and an existing average
rating, carrying exactly those values; and a raw row failing either
requirement is silently dropped from the catalog without an error. -/
theorem load_kaggle_data_wellformed :
    (∀ movies ratings rec, rec ∈ load_kaggle_data movies ratings →
      ∃ m, m ∈ movies ∧ rec.title = m.title ∧
        findYear m.title.data = some rec.year ∧
        avgRatingFor ratings m.movieId = some rec.avg_rating) ∧
    (∀ (b : RawMovie) movies ratings,
      findYear b.title.data = none ∨ avgRatingFor ratings b.movieId = none →
      load_kaggle_data (b :: movies) ratings = load_kaggle_data movies ratings) := by
  constructor
  · intro movies ratings rec h
    obtain ⟨m, hm, ht, _, _, _, hy, hr⟩ := mem_load_kaggle_data h
    exact ⟨m, hm, ht, hy, hr⟩
  · exact load_kaggle_drop

/-- A one-row Kaggle movies table used by the witnesses. -/
def kagMovies : List RawMovie :=
  [{ movieId := 1, title := "Toy Story (1995)", genres := "Adventure|Animation" }]

/-- A Kaggle ratings table with two ratings for movie 1. -/
def kagRatings : List RawRating :=
  [{ movieId := 1, rating := 4 }, { movieId := 1, rating := 4 }]

/-- A raw movie row whose title carries no 4-digit year. -/
def noYearMovie : RawMovie :=
  { movieId := 2, title := "Untitled", genres := "Drama" }

/-- A raw movie row with a year but no rating rows in `kagRatings`. -/
def unratedMovie : RawMovie :=
  { movieId := 3, title := "Ghost (1990)", genres := "Drama" }

/-- The normalized record produced from `kagMovies` and `kagRatings`. -/
def toyStoryRec : MovieRecord :=
  { title := "Toy Story (1995)", year := 1995, genres := "Adventure|Animation",
    genres_list := splitGenres "Adventure|Animation",
    avg_rating := 4, overview := DEFAULT_OVERVIEW }

/-- Evaluating the Kaggle normalizer on the one-row fixture. -/
theorem load_kaggle_fixture :
    load_kaggle_data kagMovies kagRatings = [toyStoryRec] := by
  have hyear : findYear "Toy Story (1995)".data = some 1995 := by decide
  have havg : avgRatingFor kagRatings 1 = some 4 := by
    have hrs : ratingsFor kagRatings 1 = [4, 4] := by decide
    rw [avgRatingFor, hrs]
    norm_num [round1, round_eq]
  simp [load_kaggle_data, kagMovies, List.filterMap_cons, hyear, havg, toyStoryRec]

/-- Witness for C6: the fixture record is in the normalized catalog and
descends from the raw Toy Story row; prepending the year-less raw row
leaves the catalog unchanged. -/
theorem load_kaggle_data_wellformed_witness :
    toyStoryRec ∈ load_kaggle_data kagMovies kagRatings ∧
    (findYear noYearMovie.title.data = none ∨
      avgRatingFor kagRatings noYearMovie.movieId = none) ∧
    (∃ m, m ∈ kagMovies ∧ toyStoryRec.title = m.title ∧
      findYear m.title.data = some toyStoryRec.year ∧
      avgRatingFor kagRatings m.movieId = some toyStoryRec.avg_rating) ∧
    load_kaggle_data (noYearMovie :: kagMovies) kagRatings =
      load_kaggle_data kagMovies kagRatings := by
  have hmem : toyStoryRec ∈ load_kaggle_data kagMovies kagRatings := by
    rw [load_kaggle_fixture]; exact List.mem_singleton.mpr rfl
  have hbad : findYear noYearMovie.title.data = none ∨
      avgRatingFor kagRatings noYearMovie.movieId = none := Or.inl (by decide)
  exact ⟨hmem, hbad,
    load_kaggle_data_wellformed.1 kagMovies kagRatings toyStoryRec hmem,
    load_kaggle_data_wellformed.2 noYearMovie kagMovies kagRatings hbad⟩

/-- C9: every record surviving Kaggle normalization carries the default
placeholder overview (the raw tables have no overview column, so the
overview is absent from every raw row and line 77 fills it in), hence
every normalized record has an overview text. -/
theorem load_kaggle_data_overview (movies : List RawMovie)
    (ratings : List RawRating) (rec : MovieRecord)
    (h : rec ∈ load_kaggle_data movies ratings) :
    rec.overview = DEFAULT_OVERVIEW ∧ rec.overview ≠ "" := by
  obtain ⟨m, _, _, _, _, ho, _, _⟩ := mem_load_kaggle_data h
  exact ⟨ho, by rw [ho]; decide⟩

/-- Witness for C9: the fixture record is in the normalized catalog and
carries the default overview. -/
theorem load_kaggle_data_overview_witness :
    toyStoryRec ∈ load_kaggle_data kagMovies kagRatings ∧
    toyStoryRec.overview = DEFAULT_OVERVIEW ∧ toyStoryRec.overview ≠ "" := by
  have hmem : toyStoryRec ∈ load_kaggle_data kagMovies kagRatings := by
    rw [load_kaggle_fixture]; exact List.mem_singleton.mpr rfl
  exact ⟨hmem, load_kaggle_data_overview kagMovies kagRatings toyStoryRec hmem⟩

/-- C10: every record of the normalized Kaggle catalog comes from a raw
row with at least one rating row, and its average rating is the rounded
mean of that row's ratings; a raw movie with no rating rows at all is
excluded from the catalog entirely by the inner merge. -/
theorem load_kaggle_data_rated :
    (∀ movies ratings rec, rec ∈ load_kaggle_data movies ratings →
      ∃ m, m ∈ movies ∧ ratingsFor ratings m.movieId ≠ [] ∧
        rec.avg_rating = round1 ((ratingsFor ratings m.movieId).sum /
          ((ratingsFor ratings m.movieId).length : ℚ))) ∧
    (∀ (b : RawMovie) movies ratings, ratingsFor ratings b.movieId = [] →
      load_kaggle_data (b :: movies) ratings = load_kaggle_data movies ratings) := by
  constructor
  · intro movies ratings rec h
    obtain ⟨m, hm, _, _, _, _, _, hr⟩ := mem_load_kaggle_data h
    simp only [avgRatingFor] at hr
    by_cases he : (ratingsFor ratings m.movieId).isEmpty
    · rw [if_pos he] at hr
      exact Option.noConfusion hr
    · rw [if_neg he] at hr
      refine ⟨m, hm, ?_, (Option.some.inj hr).symm⟩
      intro hnil
      exact he (by rw [hnil]; rfl)
  · intro b movies ratings h
    refine load_kaggle_drop b movies ratings (Or.inr ?_)
    simp [avgRatingFor, h]

/-- Witness for C10: the fixture record's rating is the rounded mean of
the two rating rows of movie 1, and prepending the unrated raw movie
leaves the catalog unchanged. -/
theorem load_kaggle_data_rated_witness :
    toyStoryRec ∈ load_kaggle_data kagMovies kagRatings ∧
    ratingsFor kagRatings unratedMovie.movieId = [] ∧
    (∃ m, m ∈ kagMovies ∧ ratingsFor kagRatings m.movieId ≠ [] ∧
      toyStoryRec.avg_rating = round1 ((ratingsFor kagRatings m.movieId).sum /
        ((ratingsFor kagRatings m.movieId).length : ℚ))) ∧
    load_kaggle_data (unratedMovie :: kagMovies) kagRatings =
      load_kaggle_data kagMovies kagRatings := by
  have hmem : toyStoryRec ∈ load_kaggle_data kagMovies kagRatings := by
    rw [load_kaggle_fixture]; exact List.mem_singleton.mpr rfl
  have hnone : ratingsFor kagRatings unratedMovie.movieId = [] := by decide
  exact ⟨hmem, hnone,
    load_kaggle_data_rated.1 kagMovies kagRatings toyStoryRec hmem,
    load_kaggle_data_rated.2 unratedMovie kagMovies kagRatings hnone⟩

/-! ## Order independence of the filter predicates -/

/-- The rating-threshold pass alone (`df['avg_rating'] >= min_rating`,
line 138). -/
def ratingFilter (min_rating : ℚ) (df : List MovieRecord) : List MovieRecord :=
  df.filter (fun m => decide (min_rating ≤ m.avg_rating))

/-- The inclusive year-range pass alone (lines 139-140). -/
def yearFilter (yearLo yearHi : Int) (df : List MovieRecord) : List MovieRecord :=
  df.filter (fun m => decide (yearLo ≤ m.year) && decide (m.year ≤ yearHi))

/-- The genre pass alone (lines 143-146): a no-op for "Any", otherwise
membership of the chosen genre in `genres_list`. -/
def genreFilter (selected_genre : String) (df : List MovieRecord) :
    List MovieRecord :=
  if selected_genre = "Any" then df
  else df.filter (fun m => m.genres_list.contains selected_genre)

/-- Two boolean list filters commute. -/
theorem filter_swap {α : Type} (p q : α → Bool) (l : List α) :
    (l.filter p).filter q = (l.filter q).filter p := by
  rw [List.filter_filter, List.filter_filter]
  exact List.filter_congr (fun a _ => Bool.and_comm _ _)

/-- The genre pass commutes with any boolean list filter. -/
theorem genreFilter_filter (selected_genre : String) (p : MovieRecord → Bool)
    (l : List MovieRecord) :
    genreFilter selected_genre (l.filter p) =
      (genreFilter selected_genre l).filter p := by
  rw [genreFilter, genreFilter]
  by_cases hg : selected_genre = "Any"
  · rw [if_pos hg, if_pos hg]
  · rw [if_neg hg, if_neg hg]
    exact filter_swap p _ l

/-- The combined rating-and-year pass of line 137 equals the year pass
after the rating pass. -/
theorem base_filter_eq (df : List MovieRecord) (min_rating : ℚ)
    (yearLo yearHi : Int) :
    df.filter (fun m => decide (min_rating ≤ m.avg_rating) &&
        decide (yearLo ≤ m.year) && decide (m.year ≤ yearHi)) =
      yearFilter yearLo yearHi (ratingFilter min_rating df) := by
  rw [yearFilter, ratingFilter, List.filter_filter]
  refine List.filter_congr (fun m _ => ?_)
  cases decide (min_rating ≤ m.avg_rating) <;>
    cases decide (yearLo ≤ m.year) <;> cases decide (m.year ≤ yearHi) <;> rfl

/-- C7: the filtering logic equals the three single-predicate passes
composed in every one of the six orders, and its output is a sublist of
the input catalog, so the input is not modified and the result has pure
intersection semantics. -/
theorem filterMovies_order_independent (df : List MovieRecord)
    (min_rating : ℚ) (yearLo yearHi : Int) (selected_genre : String) :
    filterMovies df min_rating yearLo yearHi selected_genre
        = genreFilter selected_genre
            (yearFilter yearLo yearHi (ratingFilter min_rating df)) ∧
    filterMovies df min_rating yearLo yearHi selected_genre
        = genreFilter selected_genre
            (ratingFilter min_rating (yearFilter yearLo yearHi df)) ∧
    filterMovies df min_rating yearLo yearHi selected_genre
        = yearFilter yearLo yearHi
            (genreFilter selected_genre (ratingFilter min_rating df)) ∧
    filterMovies df min_rating yearLo yearHi selected_genre
        = yearFilter yearLo yearHi
            (ratingFilter min_rating (genreFilter selected_genre df)) ∧
    filterMovies df min_rating yearLo yearHi selected_genre
        = ratingFilter min_rating
            (yearFilter yearLo yearHi (genreFilter selected_genre df)) ∧
    filterMovies df min_rating yearLo yearHi selected_genre
        = ratingFilter min_rating
            (genreFilter selected_genre (yearFilter yearLo yearHi df)) ∧
    List.Sublist (filterMovies df min_rating yearLo yearHi selected_genre) df := by
  have h1 : filterMovies df min_rating yearLo yearHi selected_genre
      = genreFilter selected_genre
          (yearFilter yearLo yearHi (ratingFilter min_rating df)) := by
    rw [filterMovies, genreFilter, base_filter_eq]
  have hry : yearFilter yearLo yearHi (ratingFilter min_rating df)
      = ratingFilter min_rating (yearFilter yearLo yearHi df) :=
    filter_swap _ _ df
  have h2 := h1.trans (by rw [hry])
  have gy : ∀ l, genreFilter selected_genre (yearFilter yearLo yearHi l)
      = yearFilter yearLo yearHi (genreFilter selected_genre l) :=
    fun l => genreFilter_filter selected_genre
      (fun m => decide (yearLo ≤ m.year) && decide (m.year ≤ yearHi)) l
  have gr : ∀ l, genreFilter selected_genre (ratingFilter min_rating l)
      = ratingFilter min_rating (genreFilter selected_genre l) :=
    fun l => genreFilter_filter selected_genre
      (fun m => decide (min_rating ≤ m.avg_rating)) l
  have ry : ∀ l, yearFilter yearLo yearHi (ratingFilter min_rating l)
      = ratingFilter min_rating (yearFilter yearLo yearHi l) :=
    fun l => filter_swap _ _ l
  have h3 := h1.trans (gy (ratingFilter min_rating df))
  have h4 := h3.trans (congrArg (yearFilter yearLo yearHi) (gr df))
  have h5 := h4.trans (ry (genreFilter selected_genre df))
  have h6 := h5.trans (congrArg (ratingFilter min_rating) (gy df).symm)
  have hgsub : ∀ l : List MovieRecord,
      List.Sublist (genreFilter selected_genre l) l := by
    intro l
    rw [genreFilter]
    by_cases hg : selected_genre = "Any"
    · rw [if_pos hg]
    · rw [if_neg hg]
      exact List.filter_sublist l
  have hsub : List.Sublist (filterMovies df min_rating yearLo yearHi selected_genre) df := by
    rw [h1]
    exact ((hgsub _).trans (List.filter_sublist _)).trans (List.filter_sublist df)
  exact ⟨h1, h2, h3, h4, h5, h6, hsub⟩

/-! ## Uniform random selection -/

/-- C8: on a non-empty filtered set, the randomize handler ignores the
prior selection entirely (invocations are independent, with no memory
of past picks and no exclusion), selects the candidate at the uniformly
drawn index `k % N` without failing, and for every position `i` of the
candidate list exactly one of the `N` equally likely values of the
random source selects it, so each candidate is drawn with probability
`1/N`. -/
theorem randomizeMovie_uniform (filtered : List MovieRecord) (k : Nat)
    (prior1 prior2 : Option MovieRecord) (i : Nat)
    (hne : filtered ≠ []) (hi : i < filtered.length) :
    randomizeMovie filtered k prior1 = randomizeMovie filtered k prior2 ∧
    randomizeMovie filtered k prior1 =
      (filtered.get? (k % filtered.length), false) ∧
    (filtered.get? (k % filtered.length)).isSome = true ∧
    ((Finset.range filtered.length).filter
      (fun j => j % filtered.length = i)).card = 1 := by
  have hlen : 0 < filtered.length := List.length_pos.mpr hne
  have hEmpty : filtered.isEmpty = false := by
    cases filtered with
    | nil => exact absurd rfl hne
    | cons a l => rfl
  refine ⟨rfl, ?_, ?_, ?_⟩
  · rw [randomizeMovie, hEmpty]
    rfl
  · rw [List.get?_eq_get (Nat.mod_lt k hlen)]
    rfl
  · have hcongr : (Finset.range filtered.length).filter
        (fun j => j % filtered.length = i) =
        (Finset.range filtered.length).filter (fun j => j = i) := by
      refine Finset.filter_congr (fun j hj => ?_)
      rw [Nat.mod_eq_of_lt (Finset.mem_range.mp hj)]
    rw [hcongr, Finset.filter_eq', if_pos (Finset.mem_range.mpr hi),
      Finset.card_singleton]

/-- Witness for C8: on the 13-record mock catalog, with random source
value 20 and two different prior selections, the theorem applies and in
particular position 5 is selected by exactly one of the 13 values of
the random source. -/
theorem randomizeMovie_uniform_witness :
    load_mock_data ≠ [] ∧ 5 < load_mock_data.length ∧
    (randomizeMovie load_mock_data 20 none =
      randomizeMovie load_mock_data 20 (some (normalizeMockRow godfatherRaw)) ∧
    randomizeMovie load_mock_data 20 none =
      (load_mock_data.get? (20 % load_mock_data.length), false) ∧
    (load_mock_data.get? (20 % load_mock_data.length)).isSome = true ∧
    ((Finset.range load_mock_data.length).filter
      (fun j => j % load_mock_data.length = 5)).card = 1) :=
  ⟨by decide, by decide,
    randomizeMovie_uniform load_mock_data 20 none
      (some (normalizeMockRow godfatherRaw)) 5 (by decide) (by decide)⟩

end CineMatch
